import Mathlib

set_option maxHeartbeats 1000000

namespace PricingApp

/-!
Shallow embedding of the competitive-pricing analysis application
(src/app.py, src/scraper.py, src/ai_extractor.py).

External effects (HTTP fetches, XML and JSON library parsing, the OpenAI
call, file writes, clock reads) are supplied by explicit environment
records of oracle functions; all logic belonging to the repository itself
is translated directly from the Python source.
-/

/-! ### Python-style string helpers -/

/-- Substring occurrence test over character lists: Python `pat in s`. -/
def hasSub (pat : List Char) : List Char → Bool
  | [] => pat.isEmpty
  | c :: rest => pat.isPrefixOf (c :: rest) || hasSub pat rest

/-- Python `pat in s` for strings. -/
def pyIn (pat s : String) : Bool := hasSub pat.toList s.toList

/-- Python whitespace class `\\s` (ASCII portion). -/
def isPySpace (c : Char) : Bool :=
  c = ' ' || c = '\t' || c = '\n' || c = '\r' || c.toNat = 11 || c.toNat = 12

/-- Python `s.lower()` (ASCII case mapping), structurally on characters. -/
def pyLower (s : String) : String := String.mk (s.toList.map Char.toLower)

/-- Python `s.upper()` (ASCII case mapping), structurally on characters. -/
def pyUpper (s : String) : String := String.mk (s.toList.map Char.toUpper)

/-- Python `s.strip()`, structurally on characters. -/
def pyStrip (s : String) : String :=
  String.mk (((s.toList.dropWhile isPySpace).reverse.dropWhile isPySpace).reverse)

/-- Character class `[A-Z0-9]` used by the VIN regexes. -/
def isUpperAlnum (c : Char) : Bool := c.isUpper || c.isDigit

/-! ### src/scraper.py : VehicleScraper -/

/-- Model of `urllib.parse.urlparse(url).netloc` for ordinary absolute
URLs: the text between the first scheme separator and the next path,
query or fragment delimiter (empty when the URL has no authority part). -/
def takeNetloc : List Char → List Char
  | [] => []
  | c :: rest => if c = '/' || c = '?' || c = '#' then [] else c :: takeNetloc rest

/-- Scan for the first scheme separator. -/
def afterSchemeSep : List Char → Option (List Char)
  | [] => none
  | ':' :: '/' :: '/' :: rest => some rest
  | _ :: rest => afterSchemeSep rest

def netloc (url : String) : String :=
  match afterSchemeSep url.toList with
  | some rest => String.mk (takeNetloc rest)
  | none =>
    match url.toList with
    | '/' :: '/' :: rest => String.mk (takeNetloc rest)
    | _ => ""

/-- Embeds `VehicleScraper.extract_competitor_name` (scraper.py:27-40). -/
def extract_competitor_name (url : String) : String :=
  let domain := netloc url
  if pyIn "gunnnissan" domain then "Gunn Nissan"
  else if pyIn "ingrampark" domain then "Ingram Park Nissan"
  else if pyIn "nissanboerne" domain || pyIn "boerne" domain then "Nissan of Boerne"
  else if pyIn "championnissan" domain then "Champion Nissan (New Braunfels)"
  else domain

/-- `re.search(r'\d{17}', s)` succeeds: 17 consecutive digits start here. -/
def startsDigits17 (l : List Char) : Bool :=
  (l.take 17).length == 17 && (l.take 17).all Char.isDigit

def hasDigitRun17 : List Char → Bool
  | [] => false
  | c :: rest => startsDigits17 (c :: rest) || hasDigitRun17 rest

/-- Match of `/inventory/new-\d{4}` starting at this position. -/
def startsInventoryNewYear (l : List Char) : Bool :=
  "/inventory/new-".toList.isPrefixOf l
    && ((l.drop 15).take 4).length == 4
    && ((l.drop 15).take 4).all Char.isDigit

def hasInventoryNewYear : List Char → Bool
  | [] => false
  | c :: rest => startsInventoryNewYear (c :: rest) || hasInventoryNewYear rest

/-- Exclusion terms of `VehicleScraper._is_new_nissan_vdp` (scraper.py:92-97). -/
def excludeTerms : List String :=
  ["specials", "service", "parts", "about", "contact",
   "hours", "staff", "blog", "news", "reviews", "directions",
   "finance", "trade", "sitemap", "search", "inventory/new",
   "showroom", "certified", "used", "pre-owned"]

/-- Embeds `VehicleScraper._is_new_nissan_vdp` (scraper.py:83-112). -/
def is_new_nissan_vdp (url : String) : Bool :=
  let url_lower := pyLower url
  let has_new := pyIn "new" url_lower || pyIn "/n/" url_lower
  let has_nissan := pyIn "nissan" url_lower
  let has_vin_or_detail :=
    hasDigitRun17 url_lower.toList || pyIn "detail" url_lower
      || pyIn "viewdetail" url_lower || pyIn "/auto/" url_lower
      || pyIn "/vehicle/" url_lower || hasInventoryNewYear url_lower.toList
  let has_exclude := excludeTerms.any (fun t => pyIn t url_lower)
  has_new && has_nissan && has_vin_or_detail && !has_exclude

/-- Python truthiness of the `vdp_limit` field (`if self.vdp_limit`):
`None` and `0` are falsy. -/
def limitTruthy : Option Int → Bool
  | none => false
  | some k => k != 0

/-- The acceptance test of scraper.py:71 (`if url and self._is_new_nissan_vdp(url)`). -/
def goodUrl (u : String) : Bool := !u.isEmpty && is_new_nissan_vdp u

/-- The accumulation loop of `VehicleScraper.parse_sitemap`
(scraper.py:68-78): keep non-empty loc texts accepted by
`_is_new_nissan_vdp`, breaking once the configured limit is reached. -/
def parseSitemapLoop (lim : Option Int) : List String → List String → List String
  | [], acc => acc
  | u :: rest, acc =>
    if goodUrl u then
      let acc2 := acc ++ [u]
      if limitTruthy lim && decide ((lim.getD 0) ≤ (acc2.length : Int)) then acc2
      else parseSitemapLoop lim rest acc2
    else parseSitemapLoop lim rest acc

/-- Embeds `VehicleScraper.parse_sitemap` (scraper.py:42-81). The network
fetch plus XML `loc`-element extraction is the oracle `fetch`, producing
the loc texts in document order (a missing text is modelled as `""`,
which the source skips via its `if url` truthiness test); any exception
from that stage is wrapped in the failure message of scraper.py:81. -/
def parse_sitemap (lim : Option Int) (fetch : String → Except String (List String))
    (sitemap_url : String) : Except String (List String) :=
  match fetch sitemap_url with
  | Except.error e =>
      Except.error ("Failed to parse sitemap " ++ sitemap_url ++ ": " ++ e)
  | Except.ok locs => Except.ok (parseSitemapLoop lim locs [])

/-! ### src/ai_extractor.py : AIVehicleExtractor -/

def notAvailable : String := "Not Available"

/-- The record returned by `AIVehicleExtractor.extract_vehicle_data`. -/
structure VehicleData where
  vin : String
  year : String
  make : String
  model : String
  trim : String
  msrp : String
  sale_price : String
deriving DecidableEq

/-- The record of the generic exception handler (ai_extractor.py:106-114). -/
def defaultVehicleData : VehicleData :=
  { vin := notAvailable, year := notAvailable, make := "Nissan",
    model := notAvailable, trim := notAvailable,
    msrp := notAvailable, sale_price := notAvailable }

/-- Embeds `AIVehicleExtractor._clean_vin` (ai_extractor.py:116-121):
uppercase, strip every character outside `[A-Z0-9]`, accept only an
exact 17-character remainder. -/
def clean_vin (vin : String) : String :=
  let v := String.mk (((pyUpper vin).toList).filter isUpperAlnum)
  if v.length = 17 then v else notAvailable

/-- Leftmost match of `re.search(r'20\d{2}', s)`. -/
def find20dd : List Char → Option String
  | c1 :: c2 :: c3 :: c4 :: rest =>
    if c1 = '2' && c2 = '0' && c3.isDigit && c4.isDigit then
      some (String.mk [c1, c2, c3, c4])
    else find20dd (c2 :: c3 :: c4 :: rest)
  | _ => none

/-- Embeds `AIVehicleExtractor._clean_year` (ai_extractor.py:123-128). -/
def clean_year (year : String) : String :=
  (find20dd year.toList).getD notAvailable

/-- The literal alternatives of ai_extractor.py:132. -/
def priceNaList : List String := ["not available", "n/a", "null", "none"]

/-- Digit-list to number, most significant first. -/
def natOfDigits (l : List Char) : Nat :=
  l.foldl (fun acc c => acc * 10 + (c.toNat - '0'.toNat)) 0

/-- Round `num / den` to the nearest integer, ties to even — the rounding
used when a decimal price is rendered with two fractional digits. -/
def roundHalfEven (num den : Nat) : Nat :=
  let q := num / den
  let r := num % den
  if 2 * r < den then q
  else if den < 2 * r then q + 1
  else if q % 2 = 0 then q else q + 1

/-- Value of a digits-and-one-dot string, in cents. -/
def centsOfDecimal (ds : List Char) : Nat :=
  let ip := ds.takeWhile (fun c => c ≠ '.')
  let fp := (ds.dropWhile (fun c => c ≠ '.')).drop 1
  roundHalfEven (natOfDigits (ip ++ fp) * 100) (10 ^ fp.length)

/-- Render a cent count as Python `f"\x7bx:.2f\x7d"` does for the
well-behaved price magnitudes the extractor sees. -/
def formatCents (c : Nat) : String :=
  let r := c % 100
  toString (c / 100) ++ "." ++ (if r < 10 then "0" ++ toString r else toString r)

/-- Embeds `AIVehicleExtractor._clean_price` (ai_extractor.py:130-147).
The Python numeric branch goes through a binary `float` and `:.2f`
formatting; it is modelled by exact decimal arithmetic with
round-half-even, which agrees on ordinary price strings. A filtered
string with two or more dots makes `float()` raise `ValueError`, which
the source swallows into the sentinel. -/
def clean_price (price : String) : String :=
  if price.isEmpty || priceNaList.contains (pyLower price) then notAvailable
  else
    let ds := price.toList.filter (fun c => c.isDigit || c = '.')
    let digits := ds.filter (fun c => c ≠ '.')
    if ds.isEmpty || digits.isEmpty then notAvailable
    else if 2 ≤ (ds.filter (fun c => c = '.')).length then notAvailable
    else if 0 < natOfDigits digits then formatCents (centsOfDecimal ds)
    else notAvailable

/-- Leftmost match of `re.search(r'[A-Z0-9]{17}', s)`. -/
def findRun17 : List Char → Option String
  | [] => none
  | c :: rest =>
    if ((c :: rest).take 17).length == 17 && ((c :: rest).take 17).all isUpperAlnum then
      some (String.mk ((c :: rest).take 17))
    else findRun17 rest

/-- Embeds `AIVehicleExtractor._fallback_extraction` (ai_extractor.py:149-172):
start from the default record and recover VIN / year by regex when the
response text happens to contain them. -/
def fallback_extraction (content : String) : VehicleData :=
  let base := defaultVehicleData
  let base :=
    match findRun17 content.toList with
    | some v => { base with vin := v }
    | none => base
  match find20dd content.toList with
  | some y => { base with year := y }
  | none => base

/-- `re.sub(r'^\x60\x60\x60json?\s*', '', content)`: the pattern requires
the fence to be followed by `jso` with an optional `n`; a bare fence is
left alone, exactly as in the source. -/
def stripLeadingFence (cs : List Char) : List Char :=
  if "\x60\x60\x60json".toList.isPrefixOf cs then (cs.drop 7).dropWhile isPySpace
  else if "\x60\x60\x60jso".toList.isPrefixOf cs then (cs.drop 6).dropWhile isPySpace
  else cs

/-- `re.sub(r'\s*\x60\x60\x60$', '', content)` on an already-stripped
string: drop a trailing fence and the whitespace before it. -/
def stripTrailingFence (cs : List Char) : List Char :=
  let rev := cs.reverse
  if "\x60\x60\x60".toList.isPrefixOf rev then ((rev.drop 3).dropWhile isPySpace).reverse
  else cs

/-- The markdown-fence cleanup of ai_extractor.py:80-82 applied to the
stripped response text. -/
def cleanResponse (raw : String) : String :=
  String.mk (stripTrailingFence (stripLeadingFence (pyStrip raw).toList))

/-- The HTML truncation of ai_extractor.py:33-35. -/
def truncateHtml (html : String) : String :=
  if 15000 < html.length then String.mk (html.toList.take 15000) ++ "\n...[truncated]"
  else html

/-- Python `data.get(k, default)` over the modelled JSON object. -/
def pyGet (data : List (String × String)) (k default : String) : String :=
  match data.find? (fun p => p.1 = k) with
  | some p => p.2
  | none => default

/-- Oracle environment of the extractor: the chat-completion call (keyed
by the truncated HTML, URL and title; an `error` is any exception raised
by the client) and the standard-library `json.loads`, modelled for
string-valued JSON objects (`none` is a `JSONDecodeError`; other JSON
shapes make the Python cleanup raise inside the same `try` and land in
the generic all-default handler, and are not modelled). -/
structure ExtractorEnv where
  api : String → String → String → Except String String
  json_loads : String → Option (List (String × String))

/-- Embeds `AIVehicleExtractor.extract_vehicle_data` (ai_extractor.py:20-114):
truncate the HTML, call the model, strip markdown fences, parse JSON and
clean each field; a `JSONDecodeError` falls back to regex recovery over
the response text, and any other exception yields the default record. -/
def extract_vehicle_data (env : ExtractorEnv) (html_content url page_title : String) :
    VehicleData :=
  let html := truncateHtml html_content
  match env.api html url page_title with
  | Except.error _ => defaultVehicleData
  | Except.ok raw =>
    let content := cleanResponse raw
    match env.json_loads content with
    | none => fallback_extraction content
    | some data =>
      { vin := clean_vin (pyGet data "vin" ""),
        year := clean_year (pyGet data "year" ""),
        make := pyStrip (pyGet data "make" "Nissan"),
        model := pyStrip (pyGet data "model" notAvailable),
        trim := pyStrip (pyGet data "trim" notAvailable),
        msrp := clean_price (pyGet data "msrp" ""),
        sale_price := clean_price (pyGet data "sale_price" "") }

/-! ### src/app.py : job model, runner and endpoints -/

/-- The `progress` dictionary of `AnalysisJob.__init__` (app.py:37-44). -/
structure Progress where
  current_competitor : String
  total_competitors : Nat
  completed_competitors : Nat
  current_vdp : Nat
  total_vdps : Nat
  processed_vdps : Nat
deriving DecidableEq

/-- One entry of `job.results` as assembled at app.py:107-118. -/
structure ResultRecord where
  competitor : String
  url : String
  vin : String
  year : String
  make : String
  model : String
  trim : String
  msrp : String
  sale_price : String
  date_scraped : String
deriving DecidableEq

/-- The `AnalysisJob` class (app.py:29-60). -/
structure AnalysisJob where
  job_id : String
  sitemap_urls : List String
  openai_api_key : String
  status : String
  progress : Progress
  results : List ResultRecord
  errors : List String
  completed : Bool
  csv_path : Option String
deriving DecidableEq

/-- `AnalysisJob.__init__` (app.py:32-48). -/
def AnalysisJob.init (job_id : String) (sitemap_urls : List String)
    (openai_api_key : String) : AnalysisJob :=
  { job_id, sitemap_urls, openai_api_key,
    status := "starting",
    progress := { current_competitor := "", total_competitors := sitemap_urls.length,
                  completed_competitors := 0, current_vdp := 0,
                  total_vdps := 0, processed_vdps := 0 },
    results := [], errors := [], completed := false, csv_path := none }

/-- `scrape_vdp`'s returned dictionary (scraper.py:158-163). -/
structure VdpData where
  competitor : String
  url : String
  html_content : String
  page_title : String
deriving DecidableEq

/-- What the network plus BeautifulSoup section-extraction stage of
`scrape_vdp` yields for one page. -/
structure FetchedPage where
  html_content : String
  page_title : String
deriving DecidableEq

/-- Oracle environment of one runner execution: the scraper limit the app
configures (`VDP_LIMIT`, app.py:23,69), the network/XML stage of
`parse_sitemap`, the network/DOM stage of `scrape_vdp`, the extractor's
collaborators, the file write of `generate_csv`, and the formatted
`datetime.now()` timestamp. -/
structure RunEnv where
  vdp_limit : Option Int
  sitemap_fetch : String → Except String (List String)
  fetch_page : String → Except String FetchedPage
  api : String → String → String → Except String String
  json_loads : String → Option (List (String × String))
  write_file : String → String → Except String Unit
  date : String

/-- Embeds `VehicleScraper.scrape_vdp` (scraper.py:114-166): any network
or parsing exception is wrapped in the message of scraper.py:166, and a
success carries the competitor label and the page URL alongside the
fetched content. -/
def scrape_vdp (env : RunEnv) (url : String) : Except String VdpData :=
  match env.fetch_page url with
  | Except.error e => Except.error ("Failed to scrape VDP " ++ url ++ ": " ++ e)
  | Except.ok fp =>
    Except.ok { competitor := extract_competitor_name url, url,
                html_content := fp.html_content, page_title := fp.page_title }

/-- The merged record built at app.py:107-118 for a scraped page. -/
def mkResult (env : RunEnv) (d : VdpData) : ResultRecord :=
  let vehicle_data :=
    extract_vehicle_data ⟨env.api, env.json_loads⟩ d.html_content d.url d.page_title
  { competitor := d.competitor, url := d.url,
    vin := vehicle_data.vin, year := vehicle_data.year, make := vehicle_data.make,
    model := vehicle_data.model, trim := vehicle_data.trim, msrp := vehicle_data.msrp,
    sale_price := vehicle_data.sale_price, date_scraped := env.date }

/-- One iteration of the per-VDP loop of `run_analysis` (app.py:91-129):
update progress and status, scrape, extract, and either append the merged
record and bump `processed_vdps`, or append the one per-page error entry. -/
def processVdp (env : RunEnv) (competitor_name : String) (total : Nat)
    (job : AnalysisJob) (vdp_idx : Nat) (vdp_url : String) : AnalysisJob :=
  let job := { job with
    progress := { job.progress with current_vdp := vdp_idx },
    status := "Processing " ++ competitor_name ++ " - VDP "
      ++ toString vdp_idx ++ "/" ++ toString total }
  match scrape_vdp env vdp_url with
  | Except.error e =>
    { job with errors := job.errors ++ ["Error processing " ++ vdp_url ++ ": " ++ e] }
  | Except.ok d =>
    { job with
      results := job.results ++ [mkResult env d],
      progress := { job.progress with
        processed_vdps := job.progress.processed_vdps + 1 } }

/-- The `for vdp_idx, vdp_url in enumerate(vdp_urls, 1)` loop. -/
def processVdps (env : RunEnv) (competitor_name : String) (total : Nat) :
    Nat → List String → AnalysisJob → AnalysisJob
  | _, [], job => job
  | idx, u :: rest, job =>
    processVdps env competitor_name total (idx + 1) rest
      (processVdp env competitor_name total job idx u)

/-- One iteration of the per-sitemap loop of `run_analysis` (app.py:73-136):
derive the competitor label, reset the per-competitor progress, parse the
sitemap, walk its pages, and finally bump `completed_competitors`; a
sitemap-parse failure appends one error entry and skips the rest of the
iteration. -/
def processSitemap (env : RunEnv) (idx : Nat) (sitemap_url : String)
    (job : AnalysisJob) : AnalysisJob :=
  let competitor_name := extract_competitor_name sitemap_url
  let job := { job with progress := { job.progress with
    current_competitor := competitor_name,
    completed_competitors := idx - 1,
    current_vdp := 0, total_vdps := 0 } }
  let job := { job with status := "Parsing sitemap for " ++ competitor_name }
  match parse_sitemap env.vdp_limit env.sitemap_fetch sitemap_url with
  | Except.error e =>
    { job with errors := job.errors
        ++ ["Error processing sitemap " ++ sitemap_url ++ ": " ++ e] }
  | Except.ok vdp_urls =>
    let job := { job with progress := { job.progress with total_vdps := vdp_urls.length } }
    let job := processVdps env competitor_name vdp_urls.length 1 vdp_urls job
    { job with progress := { job.progress with completed_competitors := idx } }

/-- The `for idx, sitemap_url in enumerate(job.sitemap_urls, 1)` loop. -/
def processSitemaps (env : RunEnv) : Nat → List String → AnalysisJob → AnalysisJob
  | _, [], job => job
  | idx, s :: rest, job =>
    processSitemaps env (idx + 1) rest (processSitemap env idx s job)

/-- `csv` module field quoting (QUOTE_MINIMAL): quote a field containing a
delimiter, quote or line break, doubling inner quotes. -/
def csvEscape (s : String) : String :=
  if pyIn "," s || pyIn "\x22" s || pyIn "\r" s || pyIn "\n" s then
    "\x22" ++ String.mk (s.toList.foldr
      (fun c acc => if c = '\x22' then '\x22' :: '\x22' :: acc else c :: acc) []) ++ "\x22"
  else s

def csvLine (fields : List String) : String :=
  String.intercalate "," (fields.map csvEscape) ++ "\r\n"

def csvHeader : String :=
  csvLine ["competitor", "url", "vin", "year", "make", "model", "trim",
           "msrp", "sale_price", "date_scraped"]

def csvRow (r : ResultRecord) : String :=
  csvLine [r.competitor, r.url, r.vin, r.year, r.make, r.model, r.trim,
           r.msrp, r.sale_price, r.date_scraped]

/-- The bytes `generate_csv` leaves in the export file: header and rows for
a non-empty result list, and an empty file otherwise (app.py:158-163). -/
def csvContent (results : List ResultRecord) : String :=
  if results.isEmpty then ""
  else csvHeader ++ String.join (results.map csvRow)

/-- Embeds `generate_csv` (app.py:153-165): write the export file (the
directory creation and file write are the `write_file` oracle, whose
exceptions escape to the caller) and return its path. -/
def generate_csv (env : RunEnv) (job_id : String) (results : List ResultRecord) :
    Except String String :=
  let csv_path := "exports/" ++ job_id ++ ".csv"
  match env.write_file csv_path (csvContent results) with
  | Except.error e => Except.error e
  | Except.ok _ => Except.ok csv_path

/-- Embeds `run_analysis` (app.py:63-150): status to running, walk every
sitemap, generate the CSV and mark completion; an exception escaping the
loop isolation (here: the export write) lands in the outer handler of
app.py:147-150, which records an error status and a critical-error entry
— and leaves `completed` and `csv_path` untouched. -/
def run_analysis (env : RunEnv) (job : AnalysisJob) : AnalysisJob :=
  let job := { job with status := "running" }
  let job := processSitemaps env 1 job.sitemap_urls job
  let job := { job with status := "Generating CSV" }
  match generate_csv env job.job_id job.results with
  | Except.error e =>
    { job with status := "error: " ++ e,
               errors := job.errors ++ ["Critical error: " ++ e] }
  | Except.ok csv_path =>
    { job with csv_path := some csv_path, status := "completed", completed := true }

/-- The module-level `analysis_results` dictionary (app.py:26). -/
abbrev Registry := String → Option AnalysisJob

def Registry.emptyReg : Registry := fun _ => none

def Registry.insert (r : Registry) (k : String) (j : AnalysisJob) : Registry :=
  fun k2 => if k2 = k then some j else r k2

/-- The JSON body accepted by `start_analysis`; a missing field is the
empty string, as with `data.get(..., '')`. -/
structure StartRequest where
  gunn_nissan_url : String
  ingram_park_url : String
  boerne_url : String
  champion_nb_url : String
  openai_api_key : String
deriving DecidableEq

/-- HTTP-level rejections of the three endpoints. -/
inductive ApiError where
  | badRequest (msg : String)
  | notFound (msg : String)
deriving DecidableEq

/-- The stripping and filtering of app.py:180-188. -/
def filteredUrls (data : StartRequest) : List String :=
  [pyStrip data.gunn_nissan_url, pyStrip data.ingram_park_url,
   pyStrip data.boerne_url, pyStrip data.champion_nb_url].filter (fun u => !u.isEmpty)

/-- Embeds `start_analysis` (app.py:174-210): validate, construct the job
under a fresh identifier (the `uuid4` oracle `fresh_id`), store it, and
return the identifier. The background thread started at app.py:203-205
is modelled separately by `run_analysis`. -/
def start_analysis (fresh_id : String) (registry : Registry) (data : StartRequest) :
    Except ApiError (String × Registry) :=
  let sitemap_urls := filteredUrls data
  if sitemap_urls.isEmpty then
    Except.error (ApiError.badRequest "At least one sitemap URL is required")
  else
    let openai_api_key := pyStrip data.openai_api_key
    if openai_api_key.isEmpty then
      Except.error (ApiError.badRequest "OpenAI API key is required")
    else
      let job := AnalysisJob.init fresh_id sitemap_urls openai_api_key
      Except.ok (fresh_id, registry.insert fresh_id job)

/-- The JSON body returned by `job_status` (app.py:221-229). -/
structure StatusResponse where
  job_id : String
  status : String
  progress : Progress
  completed : Bool
  total_results : Nat
  total_errors : Nat
  errors : List String
deriving DecidableEq

/-- Python `job.errors[-10:]`. -/
def lastTen (l : List String) : List String := l.drop (l.length - 10)

/-- Embeds `job_status` (app.py:213-229). -/
def job_status (registry : Registry) (job_id : String) :
    Except ApiError StatusResponse :=
  match registry job_id with
  | none => Except.error (ApiError.notFound "Job not found")
  | some job =>
    Except.ok { job_id, status := job.status, progress := job.progress,
                completed := job.completed,
                total_results := job.results.length,
                total_errors := job.errors.length,
                errors := lastTen job.errors }

/-- Python truthiness of `not job.csv_path`. -/
def optStrFalsy : Option String → Bool
  | none => true
  | some s => s.isEmpty

/-- Embeds `download_csv` (app.py:232-248), returning the path handed to
`send_file`. -/
def download_csv (registry : Registry) (job_id : String) : Except ApiError String :=
  match registry job_id with
  | none => Except.error (ApiError.notFound "Job not found")
  | some job =>
    if !job.completed || optStrFalsy job.csv_path then
      Except.error (ApiError.badRequest "Job not completed or CSV not available")
    else Except.ok (job.csv_path.getD "")

/-! ### Outcome accounting

Specification-side views of a run: what each discovered page contributes
to `results` or `errors`. They are derived from the same embedded
operations the runner calls, and the lemmas below show the runner's final
state is exactly their concatenation. -/

/-- The result record a page contributes, when its scrape succeeds. -/
def pageOutcome (env : RunEnv) (u : String) : Option ResultRecord :=
  match scrape_vdp env u with
  | Except.error _ => none
  | Except.ok d => some (mkResult env d)

/-- The error entry a page contributes, when its scrape fails. -/
def pageErrMsg (env : RunEnv) (u : String) : Option String :=
  match scrape_vdp env u with
  | Except.error e => some ("Error processing " ++ u ++ ": " ++ e)
  | Except.ok _ => none

/-- The pages discovered for one source (none when its sitemap parse fails). -/
def sourcePages (env : RunEnv) (s : String) : List String :=
  match parse_sitemap env.vdp_limit env.sitemap_fetch s with
  | Except.ok l => l
  | Except.error _ => []

def sourceResults (env : RunEnv) (s : String) : List ResultRecord :=
  (sourcePages env s).filterMap (pageOutcome env)

/-- The error entries one source contributes: a single sitemap-level entry
when discovery itself fails, otherwise one entry per failed page. -/
def sourceErrors (env : RunEnv) (s : String) : List String :=
  match parse_sitemap env.vdp_limit env.sitemap_fetch s with
  | Except.error e => ["Error processing sitemap " ++ s ++ ": " ++ e]
  | Except.ok l => l.filterMap (pageErrMsg env)

def allResults (env : RunEnv) (sources : List String) : List ResultRecord :=
  (sources.map (sourceResults env)).flatten

def allErrors (env : RunEnv) (sources : List String) : List String :=
  (sources.map (sourceErrors env)).flatten

/-- Only the page-level error entries, across all sources. -/
def allPageErrs (env : RunEnv) (sources : List String) : List String :=
  (sources.map (fun s => (sourcePages env s).filterMap (pageErrMsg env))).flatten

/-- Total number of pages discovered across all sources. -/
def totalDiscovered (env : RunEnv) (sources : List String) : Nat :=
  (sources.map (fun s => (sourcePages env s).length)).sum

/-! ### Well-formedness predicates for extracted fields -/

/-- A VIN field as `_clean_vin` promises it: the sentinel or exactly 17
characters from `[A-Z0-9]`. -/
def vinShape (v : String) : Prop :=
  v = notAvailable ∨ (v.length = 17 ∧ v.toList.all isUpperAlnum = true)

/-- A year field as `_clean_year` promises it: the sentinel or a
four-digit string starting `20`. -/
def yearShape (y : String) : Prop :=
  y = notAvailable ∨ ∃ a b, a.isDigit = true ∧ b.isDigit = true
    ∧ y = String.mk ['2', '0', a, b]

/-- A price field as `_clean_price` promises it: the sentinel or a
two-decimal rendering of some cent amount. -/
def priceShape (p : String) : Prop :=
  p = notAvailable ∨ ∃ n, p = formatCents n

/-! ### Concrete environments used to instantiate the claims -/

/-- A sitemap URL list whose entries pass `_is_new_nissan_vdp` (they
contain `new`, `nissan` and `detail`, and none of the exclusion terms). -/
def threeVdps : List String :=
  ["newnissandetail1", "newnissandetail2", "newnissandetail3"]

/-- Environment whose export write always fails. -/
def envC1 : RunEnv :=
  { vdp_limit := none,
    sitemap_fetch := fun _ => Except.ok [],
    fetch_page := fun _ => Except.error "down",
    api := fun _ _ _ => Except.error "offline",
    json_loads := fun _ => none,
    write_file := fun _ _ => Except.error "disk full",
    date := "2026-01-01 00:00:00" }

/-- Environment discovering three pages of which only the second fails. -/
def envC2 : RunEnv :=
  { vdp_limit := none,
    sitemap_fetch := fun _ => Except.ok threeVdps,
    fetch_page := fun u =>
      if u = "newnissandetail2" then Except.error "timeout"
      else Except.ok { html_content := "", page_title := "" },
    api := fun _ _ _ => Except.error "offline",
    json_loads := fun _ => none,
    write_file := fun _ _ => Except.ok (),
    date := "2026-01-01 00:00:00" }

/-- Environment discovering one page whose fetch fails. -/
def envC4 : RunEnv :=
  { vdp_limit := none,
    sitemap_fetch := fun _ => Except.ok ["newnissandetail1"],
    fetch_page := fun _ => Except.error "down",
    api := fun _ _ _ => Except.error "offline",
    json_loads := fun _ => none,
    write_file := fun _ _ => Except.ok (),
    date := "2026-01-01 00:00:00" }

/-- A submission request with one non-blank source and a non-blank key. -/
def reqC5 : StartRequest :=
  { gunn_nissan_url := " https://www.gunnnissan.com/sitemap.xml ",
    ingram_park_url := "", boerne_url := "", champion_nb_url := "",
    openai_api_key := "sk-test" }

/-- A job that has accumulated twelve error strings. -/
def jobC6 : AnalysisJob :=
  { AnalysisJob.init "j6" ["s"] "k" with
    errors := ["e01", "e02", "e03", "e04", "e05", "e06",
               "e07", "e08", "e09", "e10", "e11", "e12"] }

def regC6 : Registry := Registry.insert Registry.emptyReg "j6" jobC6

/-- Extractor environment whose upstream answers with prose that is not
JSON but contains a 17-character alphanumeric token. -/
def envC7 : ExtractorEnv :=
  { api := fun _ _ _ => Except.ok "the vin ABCD1234EFGH56789 ok",
    json_loads := fun _ => none }

/-- Environment where every page fetch fails and the export write
succeeds, so the runner reaches the export stage with no results. -/
def envC9 : RunEnv :=
  { vdp_limit := none,
    sitemap_fetch := fun _ => Except.ok ["newnissandetail1"],
    fetch_page := fun _ => Except.error "down",
    api := fun _ _ _ => Except.error "offline",
    json_loads := fun _ => none,
    write_file := fun _ _ => Except.ok (),
    date := "2026-01-01 00:00:00" }

/-- Sitemap fetch oracle for the page-cap claim: three acceptable loc
texts interleaved with a rejected one and an empty one. -/
def fetchC10 : String → Except String (List String) :=
  fun _ => Except.ok
    ["newnissandetail1", "https://ex.com/used-car", "", "newnissandetail2",
     "newnissandetail3"]

/-- The loc-text list served by `fetchC10`. -/
def wlocsC10 : List String :=
  ["newnissandetail1", "https://ex.com/used-car", "", "newnissandetail2",
   "newnissandetail3"]

/-- A well-formed string-valued JSON object as the extractor sees one. -/
def dataC7w : List (String × String) :=
  [("vin", "1n4bl4bv2rc123456"), ("year", "2025"), ("make", " Nissan "),
   ("model", "Altima"), ("trim", "SV"), ("msrp", "$28,000"),
   ("sale_price", "26,500.50")]

/-- Extractor environment whose upstream answers with parseable JSON. -/
def envC7w : ExtractorEnv :=
  { api := fun _ _ _ => Except.ok "resp",
    json_loads := fun _ => some dataC7w }

/-! ### Field-tracking lemmas for the runner -/

@[simp]
theorem processVdp_results (env : RunEnv) (c : String) (t : Nat) (j : AnalysisJob)
    (i : Nat) (u : String) :
    (processVdp env c t j i u).results = j.results ++ (pageOutcome env u).toList := by
  unfold processVdp pageOutcome
  cases h : scrape_vdp env u <;> simp

@[simp]
theorem processVdp_errors (env : RunEnv) (c : String) (t : Nat) (j : AnalysisJob)
    (i : Nat) (u : String) :
    (processVdp env c t j i u).errors = j.errors ++ (pageErrMsg env u).toList := by
  unfold processVdp pageErrMsg
  cases h : scrape_vdp env u <;> simp

@[simp]
theorem processVdp_processed (env : RunEnv) (c : String) (t : Nat) (j : AnalysisJob)
    (i : Nat) (u : String) :
    (processVdp env c t j i u).progress.processed_vdps
      = j.progress.processed_vdps + (pageOutcome env u).toList.length := by
  unfold processVdp pageOutcome
  cases h : scrape_vdp env u <;> simp

@[simp]
theorem processVdp_completed (env : RunEnv) (c : String) (t : Nat) (j : AnalysisJob)
    (i : Nat) (u : String) :
    (processVdp env c t j i u).completed = j.completed := by
  unfold processVdp
  cases h : scrape_vdp env u <;> simp

@[simp]
theorem processVdp_csv_path (env : RunEnv) (c : String) (t : Nat) (j : AnalysisJob)
    (i : Nat) (u : String) :
    (processVdp env c t j i u).csv_path = j.csv_path := by
  unfold processVdp
  cases h : scrape_vdp env u <;> simp

@[simp]
theorem processVdp_job_id (env : RunEnv) (c : String) (t : Nat) (j : AnalysisJob)
    (i : Nat) (u : String) :
    (processVdp env c t j i u).job_id = j.job_id := by
  unfold processVdp
  cases h : scrape_vdp env u <;> simp

@[simp]
theorem processVdp_sitemap_urls (env : RunEnv) (c : String) (t : Nat) (j : AnalysisJob)
    (i : Nat) (u : String) :
    (processVdp env c t j i u).sitemap_urls = j.sitemap_urls := by
  unfold processVdp
  cases h : scrape_vdp env u <;> simp

@[simp]
theorem processVdps_results (env : RunEnv) (c : String) (t : Nat) :
    ∀ (ps : List String) (i : Nat) (j : AnalysisJob),
    (processVdps env c t i ps j).results = j.results ++ ps.filterMap (pageOutcome env)
  | [], i, j => by simp [processVdps]
  | u :: rest, i, j => by
    rw [processVdps, processVdps_results env c t rest (i + 1), processVdp_results]
    cases h : pageOutcome env u <;> simp [h]

@[simp]
theorem processVdps_errors (env : RunEnv) (c : String) (t : Nat) :
    ∀ (ps : List String) (i : Nat) (j : AnalysisJob),
    (processVdps env c t i ps j).errors = j.errors ++ ps.filterMap (pageErrMsg env)
  | [], i, j => by simp [processVdps]
  | u :: rest, i, j => by
    rw [processVdps, processVdps_errors env c t rest (i + 1), processVdp_errors]
    cases h : pageErrMsg env u <;> simp [h]

@[simp]
theorem processVdps_processed (env : RunEnv) (c : String) (t : Nat) :
    ∀ (ps : List String) (i : Nat) (j : AnalysisJob),
    (processVdps env c t i ps j).progress.processed_vdps
      = j.progress.processed_vdps + (ps.filterMap (pageOutcome env)).length
  | [], i, j => by simp [processVdps]
  | u :: rest, i, j => by
    rw [processVdps, processVdps_processed env c t rest (i + 1), processVdp_processed]
    cases h : pageOutcome env u
    · simp [h]
    · simp [h]
      omega

@[simp]
theorem processVdps_completed (env : RunEnv) (c : String) (t : Nat) :
    ∀ (ps : List String) (i : Nat) (j : AnalysisJob),
    (processVdps env c t i ps j).completed = j.completed
  | [], i, j => by simp [processVdps]
  | u :: rest, i, j => by
    rw [processVdps, processVdps_completed env c t rest (i + 1), processVdp_completed]

@[simp]
theorem processVdps_csv_path (env : RunEnv) (c : String) (t : Nat) :
    ∀ (ps : List String) (i : Nat) (j : AnalysisJob),
    (processVdps env c t i ps j).csv_path = j.csv_path
  | [], i, j => by simp [processVdps]
  | u :: rest, i, j => by
    rw [processVdps, processVdps_csv_path env c t rest (i + 1), processVdp_csv_path]

@[simp]
theorem processVdps_job_id (env : RunEnv) (c : String) (t : Nat) :
    ∀ (ps : List String) (i : Nat) (j : AnalysisJob),
    (processVdps env c t i ps j).job_id = j.job_id
  | [], i, j => by simp [processVdps]
  | u :: rest, i, j => by
    rw [processVdps, processVdps_job_id env c t rest (i + 1), processVdp_job_id]

@[simp]
theorem processVdps_sitemap_urls (env : RunEnv) (c : String) (t : Nat) :
    ∀ (ps : List String) (i : Nat) (j : AnalysisJob),
    (processVdps env c t i ps j).sitemap_urls = j.sitemap_urls
  | [], i, j => by simp [processVdps]
  | u :: rest, i, j => by
    rw [processVdps, processVdps_sitemap_urls env c t rest (i + 1),
      processVdp_sitemap_urls]

@[simp]
theorem processSitemap_results (env : RunEnv) (i : Nat) (s : String) (j : AnalysisJob) :
    (processSitemap env i s j).results = j.results ++ sourceResults env s := by
  unfold processSitemap sourceResults sourcePages
  cases h : parse_sitemap env.vdp_limit env.sitemap_fetch s <;> simp [h]

@[simp]
theorem processSitemap_errors (env : RunEnv) (i : Nat) (s : String) (j : AnalysisJob) :
    (processSitemap env i s j).errors = j.errors ++ sourceErrors env s := by
  unfold processSitemap sourceErrors
  cases h : parse_sitemap env.vdp_limit env.sitemap_fetch s <;> simp [h]

@[simp]
theorem processSitemap_processed (env : RunEnv) (i : Nat) (s : String) (j : AnalysisJob) :
    (processSitemap env i s j).progress.processed_vdps
      = j.progress.processed_vdps + (sourceResults env s).length := by
  unfold processSitemap sourceResults sourcePages
  cases h : parse_sitemap env.vdp_limit env.sitemap_fetch s <;> simp [h]

@[simp]
theorem processSitemap_completed (env : RunEnv) (i : Nat) (s : String) (j : AnalysisJob) :
    (processSitemap env i s j).completed = j.completed := by
  unfold processSitemap
  cases h : parse_sitemap env.vdp_limit env.sitemap_fetch s <;> simp [h]

@[simp]
theorem processSitemap_csv_path (env : RunEnv) (i : Nat) (s : String) (j : AnalysisJob) :
    (processSitemap env i s j).csv_path = j.csv_path := by
  unfold processSitemap
  cases h : parse_sitemap env.vdp_limit env.sitemap_fetch s <;> simp [h]

@[simp]
theorem processSitemap_job_id (env : RunEnv) (i : Nat) (s : String) (j : AnalysisJob) :
    (processSitemap env i s j).job_id = j.job_id := by
  unfold processSitemap
  cases h : parse_sitemap env.vdp_limit env.sitemap_fetch s <;> simp [h]

@[simp]
theorem processSitemap_sitemap_urls (env : RunEnv) (i : Nat) (s : String)
    (j : AnalysisJob) :
    (processSitemap env i s j).sitemap_urls = j.sitemap_urls := by
  unfold processSitemap
  cases h : parse_sitemap env.vdp_limit env.sitemap_fetch s <;> simp [h]

@[simp]
theorem processSitemaps_results (env : RunEnv) :
    ∀ (ss : List String) (i : Nat) (j : AnalysisJob),
    (processSitemaps env i ss j).results = j.results ++ allResults env ss
  | [], i, j => by simp [processSitemaps, allResults]
  | s :: rest, i, j => by
    rw [processSitemaps, processSitemaps_results env rest (i + 1), processSitemap_results]
    simp [allResults]

@[simp]
theorem processSitemaps_errors (env : RunEnv) :
    ∀ (ss : List String) (i : Nat) (j : AnalysisJob),
    (processSitemaps env i ss j).errors = j.errors ++ allErrors env ss
  | [], i, j => by simp [processSitemaps, allErrors]
  | s :: rest, i, j => by
    rw [processSitemaps, processSitemaps_errors env rest (i + 1), processSitemap_errors]
    simp [allErrors]

@[simp]
theorem processSitemaps_processed (env : RunEnv) :
    ∀ (ss : List String) (i : Nat) (j : AnalysisJob),
    (processSitemaps env i ss j).progress.processed_vdps
      = j.progress.processed_vdps + (allResults env ss).length
  | [], i, j => by simp [processSitemaps, allResults]
  | s :: rest, i, j => by
    rw [processSitemaps, processSitemaps_processed env rest (i + 1)]
    simp [allResults]
    omega

@[simp]
theorem processSitemaps_completed (env : RunEnv) :
    ∀ (ss : List String) (i : Nat) (j : AnalysisJob),
    (processSitemaps env i ss j).completed = j.completed
  | [], i, j => by simp [processSitemaps]
  | s :: rest, i, j => by
    rw [processSitemaps, processSitemaps_completed env rest (i + 1),
      processSitemap_completed]

@[simp]
theorem processSitemaps_csv_path (env : RunEnv) :
    ∀ (ss : List String) (i : Nat) (j : AnalysisJob),
    (processSitemaps env i ss j).csv_path = j.csv_path
  | [], i, j => by simp [processSitemaps]
  | s :: rest, i, j => by
    rw [processSitemaps, processSitemaps_csv_path env rest (i + 1),
      processSitemap_csv_path]

@[simp]
theorem processSitemaps_job_id (env : RunEnv) :
    ∀ (ss : List String) (i : Nat) (j : AnalysisJob),
    (processSitemaps env i ss j).job_id = j.job_id
  | [], i, j => by simp [processSitemaps]
  | s :: rest, i, j => by
    rw [processSitemaps, processSitemaps_job_id env rest (i + 1), processSitemap_job_id]

/-! ### Run-level lemmas -/

theorem run_analysis_results (env : RunEnv) (j : AnalysisJob) :
    (run_analysis env j).results = j.results ++ allResults env j.sitemap_urls := by
  simp only [run_analysis]
  split <;> simp

theorem run_analysis_write_ok (env : RunEnv) (j : AnalysisJob)
    (hW : ∀ p c, env.write_file p c = Except.ok ()) :
    (run_analysis env j).completed = true
      ∧ (run_analysis env j).csv_path = some ("exports/" ++ j.job_id ++ ".csv")
      ∧ (run_analysis env j).status = "completed"
      ∧ (run_analysis env j).results = j.results ++ allResults env j.sitemap_urls
      ∧ (run_analysis env j).errors = j.errors ++ allErrors env j.sitemap_urls := by
  simp only [run_analysis, generate_csv]
  rw [hW]
  simp

theorem run_analysis_write_error (env : RunEnv) (j : AnalysisJob) (e : String)
    (hW : ∀ p c, env.write_file p c = Except.error e) :
    (run_analysis env j).completed = j.completed
      ∧ (run_analysis env j).csv_path = j.csv_path
      ∧ (run_analysis env j).status = "error: " ++ e
      ∧ (run_analysis env j).results = j.results ++ allResults env j.sitemap_urls
      ∧ (run_analysis env j).errors
          = j.errors ++ allErrors env j.sitemap_urls ++ ["Critical error: " ++ e] := by
  simp only [run_analysis, generate_csv]
  rw [hW]
  simp

/-- Each discovered page yields exactly one outcome: a result or a
page-level error entry. -/
theorem page_outcome_partition (env : RunEnv) :
    ∀ ps : List String,
    (ps.filterMap (pageOutcome env)).length + (ps.filterMap (pageErrMsg env)).length
      = ps.length
  | [] => by simp
  | u :: rest => by
    have ih := page_outcome_partition env rest
    unfold pageOutcome pageErrMsg
    unfold pageOutcome pageErrMsg at ih
    cases h : scrape_vdp env u <;> simp [List.filterMap_cons, h] <;> omega

theorem run_partition (env : RunEnv) :
    ∀ ss : List String,
    (allResults env ss).length + (allPageErrs env ss).length = totalDiscovered env ss
  | [] => by simp [allResults, allPageErrs, totalDiscovered]
  | s :: rest => by
    have h1 := page_outcome_partition env (sourcePages env s)
    have h2 := run_partition env rest
    simp only [allResults, allPageErrs, totalDiscovered, sourceResults,
      List.map_cons, List.flatten_cons, List.length_append, List.sum_cons] at h2 ⊢
    omega

/-! ### Parse-loop lemmas for the page cap -/

theorem parseLoop_no_limit (lim : Option Int) (hlim : limitTruthy lim = false) :
    ∀ (locs acc : List String),
    parseSitemapLoop lim locs acc = acc ++ locs.filter goodUrl
  | [], acc => by simp [parseSitemapLoop]
  | u :: rest, acc => by
    rw [parseSitemapLoop]
    by_cases hg : goodUrl u
    · simp [hg, hlim, parseLoop_no_limit lim hlim rest]
    · simp [hg, parseLoop_no_limit lim hlim rest]

/-- Truthiness-and-comparison of the break test of scraper.py:75 for a
positive configured limit. -/
theorem condLemma (k : Nat) (hk : k ≠ 0) (m : Nat) :
    (limitTruthy (some (k : Int)) && decide ((some (k : Int)).getD 0 ≤ (m : Int)))
      = decide (k ≤ m) := by
  simp [limitTruthy, hk]

theorem parseLoop_limit (k : Nat) :
    ∀ (locs acc : List String), acc.length < k →
    parseSitemapLoop (some (k : Int)) locs acc
      = acc ++ (locs.filter goodUrl).take (k - acc.length)
  | [], acc, _ => by simp [parseSitemapLoop]
  | u :: rest, acc, h => by
    have hk : k ≠ 0 := by omega
    rw [parseSitemapLoop]
    by_cases hg : goodUrl u = true
    · simp only [hg, if_true, condLemma k hk]
      rcases Nat.lt_or_ge (acc.length + 1) k with hlt | hge
      · have hc : decide (k ≤ (acc ++ [u]).length) = false := by
          simp
          omega
        rw [hc]
        simp only [Bool.false_eq_true, if_false]
        rw [parseLoop_limit k rest (acc ++ [u]) (by simp; omega)]
        have htake : k - acc.length = (k - (acc.length + 1)) + 1 := by omega
        simp [hg, htake]
      · have hc : decide (k ≤ (acc ++ [u]).length) = true := by
          simp
          omega
        rw [hc]
        simp only [if_true]
        have htake : k - acc.length = 1 := by omega
        simp [hg, htake]
    · simp only [hg]
      rw [parseLoop_limit k rest acc h]
      simp [hg]

/-! ### Helper lemmas for the claims -/

theorem run_analysis_processed (env : RunEnv) (j : AnalysisJob) :
    (run_analysis env j).progress.processed_vdps
      = j.progress.processed_vdps + (allResults env j.sitemap_urls).length := by
  simp only [run_analysis]
  split <;> simp

theorem allResults_nil (env : RunEnv) (hfail : ∀ u, pageOutcome env u = none) :
    ∀ ss : List String, allResults env ss = []
  | [] => by simp [allResults]
  | s :: rest => by
    have ih := allResults_nil env hfail rest
    simp only [allResults, List.map_cons, List.flatten_cons, List.append_eq_nil]
    refine ⟨?_, by simpa [allResults] using ih⟩
    simp only [sourceResults, List.filterMap_eq_nil_iff]
    intro a _
    exact hfail a

theorem find20dd_shape : ∀ (l : List Char) (s : String), find20dd l = some s →
    ∃ a b, a.isDigit = true ∧ b.isDigit = true ∧ s = String.mk ['2', '0', a, b]
  | c1 :: c2 :: c3 :: c4 :: rest, s => by
    rw [find20dd]
    by_cases hc : (c1 = '2' && c2 = '0' && c3.isDigit && c4.isDigit) = true
    · rw [if_pos hc]
      intro h
      simp only [Bool.and_eq_true, decide_eq_true_eq] at hc
      obtain ⟨⟨⟨h1, h2⟩, h3⟩, h4⟩ := hc
      refine ⟨c3, c4, h3, h4, ?_⟩
      cases h
      rw [h1, h2]
    · rw [if_neg hc]
      exact find20dd_shape (c2 :: c3 :: c4 :: rest) s
  | [], s => by simp [find20dd]
  | [c1], s => by simp [find20dd]
  | [c1, c2], s => by simp [find20dd]
  | [c1, c2, c3], s => by simp [find20dd]

theorem findRun17_shape : ∀ (l : List Char) (s : String), findRun17 l = some s →
    s.length = 17 ∧ s.toList.all isUpperAlnum = true
  | [], s => by simp [findRun17]
  | c :: rest, s => by
    rw [findRun17]
    by_cases hc : (((c :: rest).take 17).length == 17
        && ((c :: rest).take 17).all isUpperAlnum) = true
    · rw [if_pos hc]
      intro h
      simp only [Bool.and_eq_true, beq_iff_eq] at hc
      cases h
      exact ⟨by simpa using hc.1, by simpa using hc.2⟩
    · rw [if_neg hc]
      exact findRun17_shape rest s

theorem clean_vin_shape (v : String) : vinShape (clean_vin v) := by
  simp only [clean_vin, vinShape]
  split_ifs with h
  · right
    refine ⟨by simpa using h, ?_⟩
    simp only [String.toList]
    rw [List.all_eq_true]
    intro a ha
    exact (List.mem_filter.mp ha).2
  · left
    rfl

theorem clean_year_shape (y : String) : yearShape (clean_year y) := by
  unfold clean_year yearShape
  cases h : find20dd y.toList with
  | none => left; rfl
  | some s =>
    right
    obtain ⟨a, b, h1, h2, h3⟩ := find20dd_shape y.toList s h
    exact ⟨a, b, h1, h2, by simpa using h3⟩

theorem clean_price_shape (p : String) : priceShape (clean_price p) := by
  simp only [clean_price, priceShape]
  split_ifs with h1 h2 h3 h4
  · left; rfl
  · left; rfl
  · left; rfl
  · right; exact ⟨_, rfl⟩
  · left; rfl

/-- The fallback record keeps the default fields except that `vin` and
`year` may be recovered, each then well formed. -/
theorem fallback_fields (content : String) :
    (fallback_extraction content).make = "Nissan"
      ∧ (fallback_extraction content).model = notAvailable
      ∧ (fallback_extraction content).trim = notAvailable
      ∧ (fallback_extraction content).msrp = notAvailable
      ∧ (fallback_extraction content).sale_price = notAvailable
      ∧ vinShape (fallback_extraction content).vin
      ∧ yearShape (fallback_extraction content).year := by
  cases h1 : findRun17 content.data with
  | none =>
    cases h2 : find20dd content.data with
    | none =>
      have hval : fallback_extraction content = defaultVehicleData := by
        simp [fallback_extraction, h1, h2]
      rw [hval]
      exact ⟨rfl, rfl, rfl, rfl, rfl, Or.inl rfl, Or.inl rfl⟩
    | some y =>
      obtain ⟨a, b, ha, hb, hy⟩ := find20dd_shape content.data y h2
      have hval : fallback_extraction content
          = { defaultVehicleData with year := y } := by
        simp [fallback_extraction, h1, h2]
      rw [hval]
      exact ⟨rfl, rfl, rfl, rfl, rfl, Or.inl rfl, Or.inr ⟨a, b, ha, hb, hy⟩⟩
  | some v =>
    obtain ⟨hv1, hv2⟩ := findRun17_shape content.data v h1
    cases h2 : find20dd content.data with
    | none =>
      have hval : fallback_extraction content
          = { defaultVehicleData with vin := v } := by
        simp [fallback_extraction, h1, h2]
      rw [hval]
      exact ⟨rfl, rfl, rfl, rfl, rfl, Or.inr ⟨hv1, hv2⟩, Or.inl rfl⟩
    | some y =>
      obtain ⟨a, b, ha, hb, hy⟩ := find20dd_shape content.data y h2
      have hval : fallback_extraction content
          = { defaultVehicleData with vin := v, year := y } := by
        simp [fallback_extraction, h1, h2]
      rw [hval]
      exact ⟨rfl, rfl, rfl, rfl, rfl, Or.inr ⟨hv1, hv2⟩,
        Or.inr ⟨a, b, ha, hb, hy⟩⟩

/-! ### Claim theorems -/

/-- C1: the claim states that when an exception escapes the whole
pipeline (such as the export write failing), the job's status becomes an
error description, a critical-error entry is appended, `exportPath`
stays unset, and `completed` is set to true so pollers never wait
forever. Evaluating the embedded runner at such a failing input shows
the first three parts hold but `completed` remains `false`: the outer
handler of app.py:147-150 never sets it, so a poller gated on
`completed` waits forever. -/
theorem C1_export_failure_evaluation :
    (run_analysis envC1 (AnalysisJob.init "j1" ["smap"] "key")).status = "error: disk full"
      ∧ (run_analysis envC1 (AnalysisJob.init "j1" ["smap"] "key")).errors
          = ["Critical error: disk full"]
      ∧ (run_analysis envC1 (AnalysisJob.init "j1" ["smap"] "key")).csv_path = none
      ∧ (run_analysis envC1 (AnalysisJob.init "j1" ["smap"] "key")).completed = false :=
  ⟨rfl, rfl, rfl, rfl⟩

/-- C2: with three discovered pages of which only the second fails,
`results` holds entries for pages 1 and 3 in that order, `errors` holds
exactly one entry naming page 2, and the job still runs to completion —
a per-page failure never aborts the competitor loop or the Job. -/
theorem C2_per_page_isolation (env : RunEnv) (id key s p1 p2 p3 e2 : String)
    (fp1 fp3 : FetchedPage)
    (hparse : parse_sitemap env.vdp_limit env.sitemap_fetch s = Except.ok [p1, p2, p3])
    (h1 : env.fetch_page p1 = Except.ok fp1)
    (h2 : env.fetch_page p2 = Except.error e2)
    (h3 : env.fetch_page p3 = Except.ok fp3)
    (hW : ∀ p c, env.write_file p c = Except.ok ()) :
    ((run_analysis env (AnalysisJob.init id [s] key)).results.map (fun r => r.url))
        = [p1, p3]
      ∧ (run_analysis env (AnalysisJob.init id [s] key)).errors
          = ["Error processing " ++ p2 ++ ": "
              ++ ("Failed to scrape VDP " ++ p2 ++ ": " ++ e2)]
      ∧ (run_analysis env (AnalysisJob.init id [s] key)).completed = true := by
  obtain ⟨hc, -, -, hr, he⟩ := run_analysis_write_ok env (AnalysisJob.init id [s] key) hW
  refine ⟨?_, ?_, hc⟩
  · rw [hr]
    simp [AnalysisJob.init, allResults, sourceResults, sourcePages, hparse,
      pageOutcome, scrape_vdp, h1, h2, h3, mkResult]
  · rw [he]
    simp [AnalysisJob.init, allErrors, sourceErrors, hparse, pageErrMsg,
      scrape_vdp, h1, h2, h3]

/-- Witness for C2 at a concrete environment: three discovered pages,
only the middle fetch times out. -/
theorem C2_witness :
    ((run_analysis envC2 (AnalysisJob.init "job2" ["smap"] "key")).results.map
        (fun r => r.url)) = ["newnissandetail1", "newnissandetail3"]
      ∧ (run_analysis envC2 (AnalysisJob.init "job2" ["smap"] "key")).errors
          = ["Error processing newnissandetail2: "
              ++ "Failed to scrape VDP newnissandetail2: timeout"]
      ∧ (run_analysis envC2 (AnalysisJob.init "job2" ["smap"] "key")).completed = true := by
  have h := C2_per_page_isolation envC2 "job2" "key" "smap"
      "newnissandetail1" "newnissandetail2" "newnissandetail3" "timeout"
      { html_content := "", page_title := "" } { html_content := "", page_title := "" }
      rfl rfl rfl rfl (fun _ _ => rfl)
  exact ⟨h.1, h.2.1, h.2.2⟩

/-- C3: at completion the length of `results` plus the number of
page-level error entries equals the total number of pages discovered
across all sources, and in particular `results` is at most that total.
`allPageErrs` collects exactly the per-page entries the runner appends
to `errors` (sitemap-level and critical entries are separate). -/
theorem C3_outcome_accounting (env : RunEnv) (id key : String) (sources : List String) :
    (run_analysis env (AnalysisJob.init id sources key)).results.length
        + (allPageErrs env sources).length = totalDiscovered env sources
      ∧ (run_analysis env (AnalysisJob.init id sources key)).results.length
          ≤ totalDiscovered env sources := by
  have h1 := run_analysis_results env (AnalysisJob.init id sources key)
  have h2 := run_partition env sources
  rw [show (AnalysisJob.init id sources key).sitemap_urls = sources from rfl,
      show (AnalysisJob.init id sources key).results = [] from rfl] at h1
  rw [h1]
  simp only [List.nil_append]
  omega

/-- C4 counterexample: one page is discovered, its fetch fails, exactly
one error entry is appended — yet `progress.processed_vdps` is 0, not 1:
the failed page is NOT counted in the cumulative processed-page counter
(app.py:121 increments it only after a successful append), contradicting
the claim that the page is still counted. -/
theorem C4_counterexample :
    totalDiscovered envC4 ["smap"] = 1
      ∧ (run_analysis envC4 (AnalysisJob.init "j" ["smap"] "k")).errors.length = 1
      ∧ (run_analysis envC4 (AnalysisJob.init "j" ["smap"] "k")).progress.processed_vdps
          = 0 :=
  ⟨rfl, rfl, rfl⟩

/-- C4 (amended): every per-page failure appends exactly one error entry
and leaves `processed_vdps` unchanged (it never decrements); only
successful pages increment it, so at completion `processed_vdps` equals
the number of successfully processed pages, i.e. the length of
`results`. -/
theorem C4_failure_keeps_processed (env : RunEnv) (c : String) (t : Nat)
    (j : AnalysisJob) (i : Nat) (u e : String)
    (hfail : scrape_vdp env u = Except.error e) :
    (processVdp env c t j i u).errors
        = j.errors ++ ["Error processing " ++ u ++ ": " ++ e]
      ∧ (processVdp env c t j i u).progress.processed_vdps
          = j.progress.processed_vdps
      ∧ ∀ id key sources,
          (run_analysis env (AnalysisJob.init id sources key)).progress.processed_vdps
            = (run_analysis env (AnalysisJob.init id sources key)).results.length := by
  refine ⟨?_, ?_, ?_⟩
  · simp [processVdp, hfail]
  · simp [processVdp, hfail]
  · intro id key sources
    rw [run_analysis_processed, run_analysis_results]
    simp [AnalysisJob.init]

/-- Witness for the amended C4 at a concrete failing page. -/
theorem C4_witness :
    (processVdp envC4 "c" 1 (AnalysisJob.init "x" ["s"] "k") 1 "u").errors
        = ["Error processing u: " ++ "Failed to scrape VDP u: down"]
      ∧ (processVdp envC4 "c" 1 (AnalysisJob.init "x" ["s"] "k") 1 "u").progress.processed_vdps
          = 0
      ∧ (run_analysis envC4 (AnalysisJob.init "j2" ["smap"] "k")).progress.processed_vdps
          = (run_analysis envC4 (AnalysisJob.init "j2" ["smap"] "k")).results.length := by
  have h := C4_failure_keeps_processed envC4 "c" 1 (AnalysisJob.init "x" ["s"] "k") 1 "u"
      "Failed to scrape VDP u: down" rfl
  exact ⟨h.1, h.2.1, h.2.2 "j2" "k" ["smap"]⟩

/-- C5: submission is rejected with a client error whenever the filtered
source list is empty or the credential is blank (no job is stored), and
otherwise a fresh job is created, stored, and immediately visible via
the status lookup as `starting`, not completed, with empty results and
errors and zeroed progress counters (the competitor total records the
number of submitted sources). -/
theorem C5_submission_validation (fresh_id : String) (registry : Registry)
    (data : StartRequest) :
    (filteredUrls data = [] →
        start_analysis fresh_id registry data
          = Except.error (ApiError.badRequest "At least one sitemap URL is required"))
      ∧ (filteredUrls data ≠ [] → pyStrip data.openai_api_key = "" →
          start_analysis fresh_id registry data
            = Except.error (ApiError.badRequest "OpenAI API key is required"))
      ∧ (filteredUrls data ≠ [] → pyStrip data.openai_api_key ≠ "" →
          ∃ r2 : Registry,
            start_analysis fresh_id registry data = Except.ok (fresh_id, r2)
              ∧ job_status r2 fresh_id = Except.ok
                  { job_id := fresh_id, status := "starting",
                    progress :=
                      { current_competitor := "",
                        total_competitors := (filteredUrls data).length,
                        completed_competitors := 0, current_vdp := 0,
                        total_vdps := 0, processed_vdps := 0 },
                    completed := false, total_results := 0, total_errors := 0,
                    errors := [] }) := by
  refine ⟨?_, ?_, ?_⟩
  · intro h
    simp [start_analysis, h]
  · intro h hk
    have hempty : (filteredUrls data).isEmpty = false := by
      cases hl : filteredUrls data with
      | nil => exact absurd hl h
      | cons a l => rfl
    simp [start_analysis, hempty, hk]
    rfl
  · intro h hk
    have hempty : (filteredUrls data).isEmpty = false := by
      cases hl : filteredUrls data with
      | nil => exact absurd hl h
      | cons a l => rfl
    have hkey : (pyStrip data.openai_api_key).isEmpty = false := by
      rw [Bool.eq_false_iff]
      intro habs
      exact hk ((String.isEmpty_iff _).mp habs)
    refine ⟨Registry.insert registry fresh_id
        (AnalysisJob.init fresh_id (filteredUrls data) (pyStrip data.openai_api_key)),
      ?_, ?_⟩
    · simp [start_analysis, hempty, hkey]
    · simp [job_status, Registry.insert, AnalysisJob.init, lastTen]

/-- Witness for C5 at a concrete valid request. -/
theorem C5_witness :
    ∃ r2 : Registry,
      start_analysis "id1" Registry.emptyReg reqC5 = Except.ok ("id1", r2)
        ∧ job_status r2 "id1" = Except.ok
            { job_id := "id1", status := "starting",
              progress :=
                { current_competitor := "",
                  total_competitors := (filteredUrls reqC5).length,
                  completed_competitors := 0, current_vdp := 0,
                  total_vdps := 0, processed_vdps := 0 },
              completed := false, total_results := 0, total_errors := 0,
              errors := [] } :=
  (C5_submission_validation "id1" Registry.emptyReg reqC5).2.2
    (by decide) (by decide)

/-- C6: the status query returns NotFound for an unknown identifier;
for a known one it returns the status text, progress, completed flag,
result and error counts, and the error tail; whenever more than 10
errors have accumulated, the returned list has exactly 10 entries and is
the suffix of the error list (the last 10 in insertion order). -/
theorem C6_status_query (registry : Registry) (id : String) :
    (registry id = none →
        job_status registry id = Except.error (ApiError.notFound "Job not found"))
      ∧ ∀ j, registry id = some j →
          job_status registry id = Except.ok
              { job_id := id, status := j.status, progress := j.progress,
                completed := j.completed, total_results := j.results.length,
                total_errors := j.errors.length, errors := lastTen j.errors }
            ∧ (10 < j.errors.length →
                (lastTen j.errors).length = 10
                  ∧ j.errors.take (j.errors.length - 10) ++ lastTen j.errors
                      = j.errors) := by
  constructor
  · intro h
    simp [job_status, h]
  · intro j h
    refine ⟨by simp [job_status, h], ?_⟩
    intro hlen
    constructor
    · simp [lastTen]
      omega
    · exact List.take_append_drop _ _

/-- Witness for C6 at a job holding twelve error strings. -/
theorem C6_witness :
    job_status regC6 "j6" = Except.ok
        { job_id := "j6", status := "starting",
          progress :=
            { current_competitor := "", total_competitors := 1,
              completed_competitors := 0, current_vdp := 0,
              total_vdps := 0, processed_vdps := 0 },
          completed := false, total_results := 0, total_errors := 12,
          errors := ["e03", "e04", "e05", "e06", "e07",
                     "e08", "e09", "e10", "e11", "e12"] }
      ∧ (lastTen jobC6.errors).length = 10
      ∧ jobC6.errors.take 2 ++ lastTen jobC6.errors = jobC6.errors := by
  have h := (C6_status_query regC6 "j6").2 jobC6 rfl
  refine ⟨?_, (h.2 (by decide)).1, (h.2 (by decide)).2⟩
  rw [h.1]
  rfl

/-- C7 counterexample: a malformed (non-JSON) upstream response does NOT
degrade to an all-sentinel output: `_fallback_extraction` recovers a
17-character alphanumeric token into `vin`, and `make` is the fixed
string `Nissan` rather than the sentinel, contradicting the claim that
any internal failure yields an all-sentinel record. -/
theorem C7_counterexample :
    extract_vehicle_data envC7 "<html>" "u" "t"
        = { vin := "ABCD1234EFGH56789", year := notAvailable, make := "Nissan",
            model := notAvailable, trim := notAvailable, msrp := notAvailable,
            sale_price := notAvailable }
      ∧ (extract_vehicle_data envC7 "<html>" "u" "t").vin ≠ notAvailable
      ∧ (extract_vehicle_data envC7 "<html>" "u" "t").make ≠ notAvailable := by
  refine ⟨rfl, ?_, ?_⟩ <;> decide

/-- C7 (amended): `extract_vehicle_data` is a total function (it never
raises). A failing upstream call yields the fixed default record (all
sentinels except `make = "Nissan"`); a non-JSON response yields the
best-effort fallback record — default fields, except `vin`/`year` may be
recovered by pattern match from the response text, each then well
formed; on JSON success, `vin`, `year`, `msrp` and `sale_price` are each
validated to a well-formed value or the sentinel (`make`, `model` and
`trim` are passed through stripped, not validated). -/
theorem C7_extract_never_raises_amended (env : ExtractorEnv) (h u t : String) :
    (∀ e, env.api (truncateHtml h) u t = Except.error e →
        extract_vehicle_data env h u t = defaultVehicleData)
      ∧ (∀ raw, env.api (truncateHtml h) u t = Except.ok raw →
          env.json_loads (cleanResponse raw) = none →
          extract_vehicle_data env h u t = fallback_extraction (cleanResponse raw)
            ∧ (extract_vehicle_data env h u t).make = "Nissan"
            ∧ (extract_vehicle_data env h u t).model = notAvailable
            ∧ (extract_vehicle_data env h u t).trim = notAvailable
            ∧ (extract_vehicle_data env h u t).msrp = notAvailable
            ∧ (extract_vehicle_data env h u t).sale_price = notAvailable
            ∧ vinShape (extract_vehicle_data env h u t).vin
            ∧ yearShape (extract_vehicle_data env h u t).year)
      ∧ (∀ raw data, env.api (truncateHtml h) u t = Except.ok raw →
          env.json_loads (cleanResponse raw) = some data →
          vinShape (extract_vehicle_data env h u t).vin
            ∧ yearShape (extract_vehicle_data env h u t).year
            ∧ priceShape (extract_vehicle_data env h u t).msrp
            ∧ priceShape (extract_vehicle_data env h u t).sale_price) := by
  refine ⟨?_, ?_, ?_⟩
  · intro e he
    simp [extract_vehicle_data, he]
  · intro raw hok hnone
    have hx : extract_vehicle_data env h u t = fallback_extraction (cleanResponse raw) := by
      simp [extract_vehicle_data, hok, hnone]
    rw [hx]
    exact ⟨rfl, fallback_fields (cleanResponse raw)⟩
  · intro raw data hok hsome
    have hx : extract_vehicle_data env h u t
        = { vin := clean_vin (pyGet data "vin" ""),
            year := clean_year (pyGet data "year" ""),
            make := pyStrip (pyGet data "make" "Nissan"),
            model := pyStrip (pyGet data "model" notAvailable),
            trim := pyStrip (pyGet data "trim" notAvailable),
            msrp := clean_price (pyGet data "msrp" ""),
            sale_price := clean_price (pyGet data "sale_price" "") } := by
      simp [extract_vehicle_data, hok, hsome]
    rw [hx]
    exact ⟨clean_vin_shape _, clean_year_shape _, clean_price_shape _, clean_price_shape _⟩

/-- Witness for the amended C7 on a parseable upstream response. -/
theorem C7_witness :
    vinShape (extract_vehicle_data envC7w "h" "u" "t").vin
      ∧ yearShape (extract_vehicle_data envC7w "h" "u" "t").year
      ∧ priceShape (extract_vehicle_data envC7w "h" "u" "t").msrp
      ∧ priceShape (extract_vehicle_data envC7w "h" "u" "t").sale_price :=
  (C7_extract_never_raises_amended envC7w "h" "u" "t").2.2 "resp" dataC7w rfl rfl

/-- C8: the status query never exposes the credential: two jobs
identical except for `openai_api_key` produce identical status
responses (two-run noninterference of `job_status` in the credential). -/
theorem C8_credential_noninterference (registry : Registry) (id : String)
    (j : AnalysisJob) (k1 k2 : String) :
    job_status (Registry.insert registry id { j with openai_api_key := k1 }) id
      = job_status (Registry.insert registry id { j with openai_api_key := k2 }) id := by
  simp [job_status, Registry.insert]

/-- C9: when every page fails non-fatally, the runner still reaches the
export stage with an empty result list; `generate_csv` writes an empty
file (no header, no rows) and returns its path, so the job completes
with a downloadable (empty) artifact: `download_csv` serves it instead
of returning an error. -/
theorem C9_empty_export (env : RunEnv) (id key : String) (sources : List String)
    (registry : Registry)
    (hfail : ∀ u, pageOutcome env u = none)
    (hW : ∀ p c, env.write_file p c = Except.ok ()) :
    (run_analysis env (AnalysisJob.init id sources key)).results = []
      ∧ csvContent (run_analysis env (AnalysisJob.init id sources key)).results = ""
      ∧ (run_analysis env (AnalysisJob.init id sources key)).completed = true
      ∧ (run_analysis env (AnalysisJob.init id sources key)).csv_path
          = some ("exports/" ++ id ++ ".csv")
      ∧ download_csv
          (Registry.insert registry id (run_analysis env (AnalysisJob.init id sources key)))
          id = Except.ok ("exports/" ++ id ++ ".csv") := by
  obtain ⟨hc, hcp, -, hr, -⟩ := run_analysis_write_ok env (AnalysisJob.init id sources key) hW
  have hres : (run_analysis env (AnalysisJob.init id sources key)).results = [] := by
    rw [hr, allResults_nil env hfail]
    rfl
  have hne : ("exports/" ++ id ++ ".csv") ≠ "" := by
    intro hcontra
    have hlen := congrArg String.length hcontra
    simp [String.length_append] at hlen
    exact absurd hlen.1.1 (by decide)
  have hpath : ("exports/" ++ id ++ ".csv").isEmpty = false := by
    rw [Bool.eq_false_iff]
    intro habs
    exact hne ((String.isEmpty_iff _).mp habs)
  have hcp2 : (run_analysis env (AnalysisJob.init id sources key)).csv_path
      = some ("exports/" ++ id ++ ".csv") := hcp
  refine ⟨hres, by rw [hres]; rfl, hc, hcp2, ?_⟩
  simp [download_csv, Registry.insert, hc, hcp2, optStrFalsy, hpath]

/-- Witness for C9 at a concrete all-pages-fail environment. -/
theorem C9_witness :
    (run_analysis envC9 (AnalysisJob.init "j9" ["smap"] "k")).results = []
      ∧ csvContent (run_analysis envC9 (AnalysisJob.init "j9" ["smap"] "k")).results = ""
      ∧ (run_analysis envC9 (AnalysisJob.init "j9" ["smap"] "k")).completed = true
      ∧ (run_analysis envC9 (AnalysisJob.init "j9" ["smap"] "k")).csv_path
          = some "exports/j9.csv"
      ∧ download_csv
          (Registry.insert Registry.emptyReg "j9"
            (run_analysis envC9 (AnalysisJob.init "j9" ["smap"] "k"))) "j9"
          = Except.ok "exports/j9.csv" :=
  C9_empty_export envC9 "j9" "k" ["smap"] Registry.emptyReg (fun _ => rfl)
    (fun _ _ => rfl)

/-- C10: the page cap is disabled, not set to zero, when `vdp_limit` is
0 or None — `parse_sitemap` then returns every matching page URL in
document order; with a positive limit k it returns exactly the first k
matches in document order, hence at most k URLs. -/
theorem C10_vdp_limit_cap (fetch : String → Except String (List String))
    (s : String) (locs : List String) (h : fetch s = Except.ok locs) :
    parse_sitemap (some 0) fetch s = Except.ok (locs.filter goodUrl)
      ∧ parse_sitemap none fetch s = Except.ok (locs.filter goodUrl)
      ∧ ∀ k : Nat, 0 < k →
          parse_sitemap (some (k : Int)) fetch s
              = Except.ok ((locs.filter goodUrl).take k)
            ∧ ((locs.filter goodUrl).take k).length ≤ k := by
  unfold parse_sitemap
  simp only [h]
  refine ⟨?_, ?_, ?_⟩
  · rw [parseLoop_no_limit (some 0) (by decide) locs []]
    simp
  · rw [parseLoop_no_limit none (by decide) locs []]
    simp
  · intro k hk
    constructor
    · rw [parseLoop_limit k locs [] (by simpa using hk)]
      simp
    · exact List.length_take_le k _

/-- Witness for C10 on a concrete sitemap with three matching entries. -/
theorem C10_witness :
    parse_sitemap (some 0) fetchC10 "smap"
        = Except.ok ["newnissandetail1", "newnissandetail2", "newnissandetail3"]
      ∧ parse_sitemap (some ((2 : Nat) : Int)) fetchC10 "smap"
        = Except.ok ["newnissandetail1", "newnissandetail2"] := by
  have h := C10_vdp_limit_cap fetchC10 "smap" wlocsC10 rfl
  refine ⟨?_, ?_⟩
  · rw [h.1]
    rfl
  · rw [(h.2.2 2 (by decide)).1]
    rfl


end PricingApp
